import Mathlib

/-!
Verification of the actor identity/lifetime/addressing layer
(`libcaf_core/caf/actor_control_block.hpp`).

The control block stores two reference counts (strong and weak), the
actor's address (actor id + node id), a pointer to the home actor
system and two type-erased destruction callbacks.  We embed the block
as a Lean structure; machine pointers (the actor-system pointer and
the two function pointers) are modelled by opaque numeric identities,
since the layer never inspects them, it only stores and invokes them.

The header defines the constructor, `intrusive_ptr_add_ref`,
`intrusive_ptr_add_weak_ref`, `get`/`from` and the accessors inline.
The release, upgrade, enqueue and serialize operations are only
declared in the header (their translation unit is not part of the
sources at hand); those are modelled from the specification, each
marked `Modelled from the spec:` in its doc comment.

Side effects (invoking the data destructor or the block destructor)
are made observable as an event list returned next to the updated
block state.
-/

namespace caf

/-- Actor ids are per-node numeric identifiers (`actor_id` is `uint64_t`). -/
abbrev actor_id := Nat

/-- Node ids identify the runtime instance that created an actor.  The
concrete representation (host id + process id, from `node_id.hpp`, not in
the sources at hand) is opaque to this layer; we model it by a number with
its total order. -/
abbrev node_id := Nat

/-- Observable side effects of the reference-counting operations: the call
of the data destructor (`data_dtor`) and the call of the block destructor
(`block_dtor`). -/
inductive event where
  | data_dtor_call
  | block_dtor_call
deriving DecidableEq

/-- The control block of `actor_control_block.hpp`: two atomic counters,
the identity fields and the two destruction callbacks.  The callbacks and
the `actor_system*` are opaque values the layer stores but never reads. -/
structure actor_control_block where
  strong_refs : Nat
  weak_refs : Nat
  aid : actor_id
  nid : node_id
  home_system : Nat
  data_dtor : Nat
  block_dtor : Nat
deriving DecidableEq

/-- The constructor of `actor_control_block`: initializes `strong_refs`
to 1 and `weak_refs` to 1 and stores the identity fields and callbacks. -/
def actor_control_block.construct (x : actor_id) (y : node_id) (sys : Nat)
    (ddtor : Nat) (bdtor : Nat) : actor_control_block :=
  { strong_refs := 1
    weak_refs := 1
    aid := x
    nid := y
    home_system := sys
    data_dtor := ddtor
    block_dtor := bdtor }

/-- The operation `intrusive_ptr_add_ref` (inline in the header): increments the strong
count by one; no other side effect. -/
def intrusive_ptr_add_ref (x : actor_control_block) :
    actor_control_block × List event :=
  ({ x with strong_refs := x.strong_refs + 1 }, [])

/-- The operation `intrusive_ptr_add_weak_ref` (inline in the header): increments the
weak count by one; no other side effect. -/
def intrusive_ptr_add_weak_ref (x : actor_control_block) :
    actor_control_block × List event :=
  ({ x with weak_refs := x.weak_refs + 1 }, [])

/-- Modelled from the spec: `intrusive_ptr_release_weak` is only declared
in the header (its translation unit is missing from the sources at hand).
Per the spec: atomically decrement the weak count; if the result is zero,
invoke the block-destruction callback, freeing the entire allocation. -/
def intrusive_ptr_release_weak (x : actor_control_block) :
    actor_control_block × List event :=
  let x' := { x with weak_refs := x.weak_refs - 1 }
  if x'.weak_refs = 0 then (x', [event.block_dtor_call]) else (x', [])

/-- Modelled from the spec: `intrusive_ptr_release` is only declared in
the header (its translation unit is missing from the sources at hand).
Per the spec: atomically decrement the strong count; if the result is
zero, invoke the data-destruction callback on the actor's private data
(the sole side effect besides bookkeeping), then perform one
`release_weak` to relinquish the implicit internal weak reference. -/
def intrusive_ptr_release (x : actor_control_block) :
    actor_control_block × List event :=
  let x' := { x with strong_refs := x.strong_refs - 1 }
  if x'.strong_refs = 0 then
    let r := intrusive_ptr_release_weak x'
    (r.1, event.data_dtor_call :: r.2)
  else (x', [])

/-- Modelled from the spec: `intrusive_ptr_upgrade_weak` is only declared
in the header (its translation unit is missing from the sources at hand).
Per the spec: read the strong count; if zero, fail; otherwise a CAS-retry
loop increments the observed value by one and succeeds.  In this
sequential embedding the CAS loop collapses to a single test-and-set. -/
def intrusive_ptr_upgrade_weak (x : actor_control_block) :
    actor_control_block × Bool :=
  if x.strong_refs = 0 then (x, false)
  else ({ x with strong_refs := x.strong_refs + 1 }, true)

/-- The cache-line offset between the control block and the actor data
(`CAF_CACHE_LINE_SIZE`, from the configuration header). -/
def CAF_CACHE_LINE_SIZE : Int := 64

/-- The member `actor_control_block::get`: pointer to the actor instance co-located
after the control block.  Addresses are modelled by integers. -/
def acb_get (x : Int) : Int :=
  x + CAF_CACHE_LINE_SIZE

/-- The member `actor_control_block::from`: pointer to the control block preceding a
given actor instance.  Addresses are modelled by integers. -/
def acb_from (p : Int) : Int :=
  p - CAF_CACHE_LINE_SIZE

/-- A lifecycle state of one control block together with the handles the
clients of the layer currently hold: `strongHandles` strong handles,
`weakHandles` weak handles, plus the trace of destructor events emitted so
far (oldest first).  The handle counts express the usage contract of
`intrusive_ptr`/`weak_intrusive_ptr`: a count is only ever mutated by a
caller that holds a corresponding valid handle. -/
structure LifeState where
  blk : actor_control_block
  strongHandles : Nat
  weakHandles : Nat
  trace : List event
deriving DecidableEq

/-- The state right after an actor is allocated: the freshly constructed
control block, with the initial strong count already transferred to the
first strong handle and no weak handle published yet. -/
def initState (x : actor_id) (y : node_id) (sys ddtor bdtor : Nat) :
    LifeState :=
  { blk := actor_control_block.construct x y sys ddtor bdtor
    strongHandles := 1
    weakHandles := 0
    trace := [] }

/-- One client operation on the handles of a control block.  Every
operation requires the caller to hold a handle of the appropriate kind,
which is exactly the usage contract of the reference-counting layer. -/
inductive Step : LifeState → LifeState → Prop where
  | clone_strong (s : LifeState) (h : 0 < s.strongHandles) :
      Step s { blk := (intrusive_ptr_add_ref s.blk).1
               strongHandles := s.strongHandles + 1
               weakHandles := s.weakHandles
               trace := s.trace ++ (intrusive_ptr_add_ref s.blk).2 }
  | drop_strong (s : LifeState) (h : 0 < s.strongHandles) :
      Step s { blk := (intrusive_ptr_release s.blk).1
               strongHandles := s.strongHandles - 1
               weakHandles := s.weakHandles
               trace := s.trace ++ (intrusive_ptr_release s.blk).2 }
  | clone_weak (s : LifeState) (h : 0 < s.weakHandles) :
      Step s { blk := (intrusive_ptr_add_weak_ref s.blk).1
               strongHandles := s.strongHandles
               weakHandles := s.weakHandles + 1
               trace := s.trace ++ (intrusive_ptr_add_weak_ref s.blk).2 }
  | downgrade (s : LifeState) (h : 0 < s.strongHandles) :
      Step s { blk := (intrusive_ptr_add_weak_ref s.blk).1
               strongHandles := s.strongHandles
               weakHandles := s.weakHandles + 1
               trace := s.trace ++ (intrusive_ptr_add_weak_ref s.blk).2 }
  | drop_weak (s : LifeState) (h : 0 < s.weakHandles) :
      Step s { blk := (intrusive_ptr_release_weak s.blk).1
               strongHandles := s.strongHandles
               weakHandles := s.weakHandles - 1
               trace := s.trace ++ (intrusive_ptr_release_weak s.blk).2 }
  | upgrade (s : LifeState) (h : 0 < s.weakHandles) :
      Step s { blk := (intrusive_ptr_upgrade_weak s.blk).1
               strongHandles :=
                 if (intrusive_ptr_upgrade_weak s.blk).2 then
                   s.strongHandles + 1
                 else s.strongHandles
               weakHandles := s.weakHandles
               trace := s.trace }

/-- Zero or more client operations. -/
inductive StepStar : LifeState → LifeState → Prop where
  | refl (s : LifeState) : StepStar s s
  | tail {s t u : LifeState} : StepStar s t → Step t u → StepStar s u

/-- The states reachable from some initial allocation by client
operations. -/
inductive Reachable : LifeState → Prop where
  | init (x : actor_id) (y : node_id) (sys ddtor bdtor : Nat) :
      Reachable (initState x y sys ddtor bdtor)
  | step {s t : LifeState} : Reachable s → Step s t → Reachable t

/-- The lifecycle invariant: the strong count equals the number of strong
handles, the weak count equals the number of weak handles plus the
implicit internal weak reference (held exactly while the strong side is
alive), and the emitted trace is one of `[]` (actor alive),
`[data_dtor_call]` (data destructed, storage still alive) or
`[data_dtor_call, block_dtor_call]` (fully torn down). -/
def Inv (s : LifeState) : Prop :=
  s.blk.strong_refs = s.strongHandles ∧
  s.blk.weak_refs = s.weakHandles + min s.strongHandles 1 ∧
  (s.trace = [] ∧ 0 < s.blk.strong_refs ∨
   s.trace = [event.data_dtor_call] ∧ s.blk.strong_refs = 0 ∧
     0 < s.blk.weak_refs ∨
   s.trace = [event.data_dtor_call, event.block_dtor_call] ∧
     s.blk.strong_refs = 0 ∧ s.blk.weak_refs = 0)

/-- The state reached from a fresh actor by dropping its only strong
handle: both destructors have fired. -/
def dead_state : LifeState :=
  { blk := (intrusive_ptr_release (initState 7 3 11 13 17).blk).1
    strongHandles := (initState 7 3 11 13 17).strongHandles - 1
    weakHandles := (initState 7 3 11 13 17).weakHandles
    trace :=
      (initState 7 3 11 13 17).trace ++
        (intrusive_ptr_release (initState 7 3 11 13 17).blk).2 }

/-- An actor address: node identifier plus per-node local identifier
(the `nid`/`aid` pair every control block stores). -/
structure actor_addr where
  nid : node_id
  aid : actor_id
deriving DecidableEq

/-- Modelled from the spec: equality and ordering of addresses are
defined purely on (node identifier, local identifier); the comparison
operators live in headers outside the sources at hand.  The order is
lexicographic. -/
def actor_addr.le (a b : actor_addr) : Bool :=
  decide (a.nid < b.nid) ||
    (decide (a.nid = b.nid) && decide (a.aid ≤ b.aid))

/-- The address stored in a control block, as exposed by the `id()` and
`node()` accessors. -/
def actor_control_block.addr_of (x : actor_control_block) : actor_addr :=
  { nid := x.nid, aid := x.aid }

/-- A mailbox element: optional sender address (empty for anonymous
sends), the correlation message id and the payload (modelled by an opaque
number). -/
structure mailbox_element where
  sender : Option actor_addr
  mid : Nat
  content : Nat
deriving DecidableEq

/-- The outcome of a delivery, seen from the sender.  The
`sender_error` case exists in the model only so that the funnel contract
— it is never produced — is a meaningful statement. -/
inductive enqueue_outcome where
  | delivered
  | dropped
  | sender_error (code : Nat)
deriving DecidableEq

/-- Modelled from the spec: the `enqueue` overload taking a pre-built
mailbox element (its translation unit is missing from the sources at
hand).  Delivery to a dead actor is defined behavior (dropped or
dead-lettered by the receiving side), never a synchronous error. -/
def actor_control_block.enqueue_element (x : actor_control_block)
    (what : mailbox_element) (_host : Nat)
    (mbox : List mailbox_element) :
    List mailbox_element × enqueue_outcome :=
  if x.strong_refs = 0 then (mbox, enqueue_outcome.dropped)
  else (mbox ++ [what], enqueue_outcome.delivered)

/-- Modelled from the spec: the `enqueue` overload taking sender, message
id, payload and execution context; it builds the mailbox element and
submits it through the same funnel. -/
def actor_control_block.enqueue_new (x : actor_control_block)
    (sender : Option actor_addr) (mid : Nat) (content : Nat) (host : Nat)
    (mbox : List mailbox_element) :
    List mailbox_element × enqueue_outcome :=
  actor_control_block.enqueue_element x
    { sender := sender, mid := mid, content := content } host mbox

/-- Control blocks have pointer identity; a handle refers to a block by
an opaque identity resolved through an environment. -/
abbrev block_id := Nat

/-- The wire representation of a handle: the discriminator (empty,
strong or weak) and — when non-empty — the actor address, and nothing
else.  The actor's private data cannot appear here by construction. -/
inductive actor_ref_wire where
  | empty
  | strong_ref (n : node_id) (a : actor_id)
  | weak_ref (n : node_id) (a : actor_id)
deriving DecidableEq

/-- The numeric discriminator of the wire format: 0 = empty, 1 = strong,
2 = weak. -/
def actor_ref_wire.discriminator : actor_ref_wire → Nat
  | actor_ref_wire.empty => 0
  | actor_ref_wire.strong_ref _ _ => 1
  | actor_ref_wire.weak_ref _ _ => 2

/-- Modelled from the spec: serializing a strong handle (`serialize` for
`strong_actor_ptr` is only declared in the header) writes only the
address of the referenced block plus the strong discriminator; an empty
handle writes the empty discriminator. -/
def serialize_strong (env : block_id → actor_control_block) :
    Option block_id → actor_ref_wire
  | none => actor_ref_wire.empty
  | some b => actor_ref_wire.strong_ref (env b).nid (env b).aid

/-- Modelled from the spec: serializing a weak handle writes only the
address of the referenced block plus the weak discriminator. -/
def serialize_weak (env : block_id → actor_control_block) :
    Option block_id → actor_ref_wire
  | none => actor_ref_wire.empty
  | some b => actor_ref_wire.weak_ref (env b).nid (env b).aid

/-- Modelled from the spec: deserialization resolves the address against
the local runtime's registry.  A local address resolves to the registered
block, or to the empty handle when the runtime reports the actor gone; a
remote address reuses the registered proxy or creates a fresh one. -/
def deserialize_handle (localNode : node_id)
    (reg : actor_addr → Option block_id)
    (mkProxy : actor_addr → block_id) :
    actor_ref_wire → Option block_id
  | actor_ref_wire.empty => none
  | actor_ref_wire.strong_ref n a =>
      if n = localNode then reg { nid := n, aid := a }
      else
        match reg { nid := n, aid := a } with
        | some b => some b
        | none => some (mkProxy { nid := n, aid := a })
  | actor_ref_wire.weak_ref n a =>
      if n = localNode then reg { nid := n, aid := a }
      else
        match reg { nid := n, aid := a } with
        | some b => some b
        | none => some (mkProxy { nid := n, aid := a })

/-- The identity fields of a control block other than the two counters:
actor id, node id, home-system pointer and the two destruction
callbacks. -/
def preserves_identity (a b : actor_control_block) : Prop :=
  a.aid = b.aid ∧ a.nid = b.nid ∧ a.home_system = b.home_system ∧
  a.data_dtor = b.data_dtor ∧ a.block_dtor = b.block_dtor

/-- Claim C4: constructing an `actor_control_block` initializes the strong
count to exactly 1 and the weak count to exactly 1 and stores the identity
fields and the two callbacks unchanged. -/
theorem construct_initializes_counts_and_fields :
    ∀ (x : actor_id) (y : node_id) (sys ddtor bdtor : Nat),
      (actor_control_block.construct x y sys ddtor bdtor).strong_refs = 1 ∧
      (actor_control_block.construct x y sys ddtor bdtor).weak_refs = 1 ∧
      (actor_control_block.construct x y sys ddtor bdtor).aid = x ∧
      (actor_control_block.construct x y sys ddtor bdtor).nid = y ∧
      (actor_control_block.construct x y sys ddtor bdtor).home_system = sys ∧
      (actor_control_block.construct x y sys ddtor bdtor).data_dtor = ddtor ∧
      (actor_control_block.construct x y sys ddtor bdtor).block_dtor = bdtor := by
  intro x y sys ddtor bdtor
  exact ⟨rfl, rfl, rfl, rfl, rfl, rfl, rfl⟩

/-- Claim C10: `get` and `from` are mutual inverses at the fixed offset
`CAF_CACHE_LINE_SIZE`: `from (get x) = x` and `get (from p) = p`, so the
control block and its co-located actor data resolve to each other
deterministically. -/
theorem get_from_mutual_inverses :
    (∀ x : Int, acb_get x = x + CAF_CACHE_LINE_SIZE) ∧
    (∀ x : Int, acb_from (acb_get x) = x) ∧
    (∀ p : Int, acb_get (acb_from p) = p) := by
  refine ⟨fun x => rfl, fun x => ?_, fun p => ?_⟩
  · simp [acb_get, acb_from]
  · simp [acb_get, acb_from]

/-- Claim C6: `intrusive_ptr_add_ref` increments the strong count by
exactly one and `intrusive_ptr_add_weak_ref` increments the weak count by
exactly one, each with no other side effect; and no operation of the
layer mutates any control-block field other than the two counters. -/
theorem add_ref_increments_and_ops_preserve_identity :
    ∀ x : actor_control_block,
      ((intrusive_ptr_add_ref x).1.strong_refs = x.strong_refs + 1 ∧
       (intrusive_ptr_add_ref x).1.weak_refs = x.weak_refs ∧
       (intrusive_ptr_add_ref x).2 = []) ∧
      ((intrusive_ptr_add_weak_ref x).1.weak_refs = x.weak_refs + 1 ∧
       (intrusive_ptr_add_weak_ref x).1.strong_refs = x.strong_refs ∧
       (intrusive_ptr_add_weak_ref x).2 = []) ∧
      preserves_identity (intrusive_ptr_add_ref x).1 x ∧
      preserves_identity (intrusive_ptr_add_weak_ref x).1 x ∧
      preserves_identity (intrusive_ptr_release x).1 x ∧
      preserves_identity (intrusive_ptr_release_weak x).1 x ∧
      preserves_identity (intrusive_ptr_upgrade_weak x).1 x := by
  intro x
  refine ⟨⟨rfl, rfl, rfl⟩, ⟨rfl, rfl, rfl⟩, ⟨rfl, rfl, rfl, rfl, rfl⟩,
    ⟨rfl, rfl, rfl, rfl, rfl⟩, ?_, ?_, ?_⟩
  · by_cases h : x.strong_refs - 1 = 0 <;> by_cases h2 : x.weak_refs - 1 = 0 <;>
      simp [intrusive_ptr_release, intrusive_ptr_release_weak,
        preserves_identity, h, h2]
  · by_cases h2 : x.weak_refs - 1 = 0 <;>
      simp [intrusive_ptr_release_weak, preserves_identity, h2]
  · by_cases h : x.strong_refs = 0 <;>
      simp [intrusive_ptr_upgrade_weak, preserves_identity, h]

theorem release_fst_strong (x : actor_control_block) :
    (intrusive_ptr_release x).1.strong_refs = x.strong_refs - 1 := by
  by_cases h : x.strong_refs - 1 = 0 <;>
    by_cases h2 : x.weak_refs - 1 = 0 <;>
    simp [intrusive_ptr_release, intrusive_ptr_release_weak, h, h2]

theorem release_fst_weak (x : actor_control_block) :
    (intrusive_ptr_release x).1.weak_refs =
      if x.strong_refs - 1 = 0 then x.weak_refs - 1 else x.weak_refs := by
  by_cases h : x.strong_refs - 1 = 0 <;>
    by_cases h2 : x.weak_refs - 1 = 0 <;>
    simp [intrusive_ptr_release, intrusive_ptr_release_weak, h, h2]

theorem release_snd (x : actor_control_block) :
    (intrusive_ptr_release x).2 =
      if x.strong_refs - 1 = 0 then
        event.data_dtor_call ::
          (if x.weak_refs - 1 = 0 then [event.block_dtor_call] else [])
      else [] := by
  by_cases h : x.strong_refs - 1 = 0 <;>
    by_cases h2 : x.weak_refs - 1 = 0 <;>
    simp [intrusive_ptr_release, intrusive_ptr_release_weak, h, h2]

theorem release_weak_fst_strong (x : actor_control_block) :
    (intrusive_ptr_release_weak x).1.strong_refs = x.strong_refs := by
  by_cases h2 : x.weak_refs - 1 = 0 <;>
    simp [intrusive_ptr_release_weak, h2]

theorem release_weak_fst_weak (x : actor_control_block) :
    (intrusive_ptr_release_weak x).1.weak_refs = x.weak_refs - 1 := by
  by_cases h2 : x.weak_refs - 1 = 0 <;>
    simp [intrusive_ptr_release_weak, h2]

theorem release_weak_snd (x : actor_control_block) :
    (intrusive_ptr_release_weak x).2 =
      if x.weak_refs - 1 = 0 then [event.block_dtor_call] else [] := by
  by_cases h2 : x.weak_refs - 1 = 0 <;>
    simp [intrusive_ptr_release_weak, h2]

theorem upgrade_snd (x : actor_control_block) :
    ((intrusive_ptr_upgrade_weak x).2 = true ↔ x.strong_refs ≠ 0) := by
  by_cases h : x.strong_refs = 0 <;>
    simp [intrusive_ptr_upgrade_weak, h]

theorem upgrade_fst_of_fail (x : actor_control_block)
    (h : (intrusive_ptr_upgrade_weak x).2 = false) :
    (intrusive_ptr_upgrade_weak x).1 = x := by
  by_cases h0 : x.strong_refs = 0
  · simp [intrusive_ptr_upgrade_weak, h0]
  · simp [intrusive_ptr_upgrade_weak, h0] at h

theorem upgrade_fst_of_ok (x : actor_control_block)
    (h : (intrusive_ptr_upgrade_weak x).2 = true) :
    (intrusive_ptr_upgrade_weak x).1.strong_refs = x.strong_refs + 1 := by
  by_cases h0 : x.strong_refs = 0
  · simp [intrusive_ptr_upgrade_weak, h0] at h
  · simp [intrusive_ptr_upgrade_weak, h0]

theorem upgrade_fst_weak (x : actor_control_block) :
    (intrusive_ptr_upgrade_weak x).1.weak_refs = x.weak_refs := by
  by_cases h0 : x.strong_refs = 0 <;>
    simp [intrusive_ptr_upgrade_weak, h0]

theorem Inv_init (x : actor_id) (y : node_id) (sys ddtor bdtor : Nat) :
    Inv (initState x y sys ddtor bdtor) := by
  refine ⟨rfl, rfl, Or.inl ⟨rfl, ?_⟩⟩
  exact Nat.one_pos

theorem Step_preserves_Inv {s t : LifeState} (hinv : Inv s)
    (hst : Step s t) : Inv t := by
  obtain ⟨h1, h2, htr⟩ := hinv
  cases hst with
  | clone_strong h =>
      refine ⟨?_, ?_, ?_⟩
      · simp [intrusive_ptr_add_ref]; omega
      · simp [intrusive_ptr_add_ref]; omega
      · rcases htr with ⟨ht, hpos⟩ | ⟨ht, hz, hw⟩ | ⟨ht, hz, hw⟩
        · exact Or.inl ⟨by simp [intrusive_ptr_add_ref, ht],
            by simp [intrusive_ptr_add_ref]⟩
        · omega
        · omega
  | drop_strong h =>
      rcases htr with ⟨ht, hpos⟩ | ⟨ht, hz, hw⟩ | ⟨ht, hz, hw⟩
      · by_cases hone : s.blk.strong_refs = 1
        · refine ⟨?_, ?_, ?_⟩
          · simp [release_fst_strong]; omega
          · simp [release_fst_strong, release_fst_weak, hone]; omega
          · by_cases hwone : s.blk.weak_refs = 1
            · refine Or.inr (Or.inr ⟨?_, ?_, ?_⟩)
              · simp [release_snd, hone, hwone, ht]
              · simp [release_fst_strong, hone]
              · simp [release_fst_weak, hone, hwone]
            · refine Or.inr (Or.inl ⟨?_, ?_, ?_⟩)
              · have hw2 : ¬(s.blk.weak_refs - 1 = 0) := by omega
                simp [release_snd, hone, hw2, ht]
              · simp [release_fst_strong, hone]
              · simp [release_fst_weak, hone]; omega
        · have hs2 : ¬(s.blk.strong_refs - 1 = 0) := by omega
          refine ⟨?_, ?_, Or.inl ⟨?_, ?_⟩⟩
          · simp [release_fst_strong]; omega
          · simp [release_fst_strong, release_fst_weak, hs2]; omega
          · simp [release_snd, hs2, ht]
          · simp [release_fst_strong]; omega
      · omega
      · omega
  | clone_weak h =>
      refine ⟨?_, ?_, ?_⟩
      · simp [intrusive_ptr_add_weak_ref]; omega
      · simp [intrusive_ptr_add_weak_ref]; omega
      · rcases htr with ⟨ht, hpos⟩ | ⟨ht, hz, hw⟩ | ⟨ht, hz, hw⟩
        · exact Or.inl ⟨by simp [intrusive_ptr_add_weak_ref, ht],
            by simp [intrusive_ptr_add_weak_ref]; omega⟩
        · exact Or.inr (Or.inl ⟨by simp [intrusive_ptr_add_weak_ref, ht],
            by simp [intrusive_ptr_add_weak_ref]; omega,
            by simp [intrusive_ptr_add_weak_ref]⟩)
        · omega
  | downgrade h =>
      refine ⟨?_, ?_, ?_⟩
      · simp [intrusive_ptr_add_weak_ref]; omega
      · simp [intrusive_ptr_add_weak_ref]; omega
      · rcases htr with ⟨ht, hpos⟩ | ⟨ht, hz, hw⟩ | ⟨ht, hz, hw⟩
        · exact Or.inl ⟨by simp [intrusive_ptr_add_weak_ref, ht],
            by simp [intrusive_ptr_add_weak_ref]; omega⟩
        · omega
        · omega
  | drop_weak h =>
      rcases htr with ⟨ht, hpos⟩ | ⟨ht, hz, hw⟩ | ⟨ht, hz, hw⟩
      · have hw2 : ¬(s.blk.weak_refs - 1 = 0) := by omega
        refine ⟨?_, ?_, Or.inl ⟨?_, ?_⟩⟩
        · simp [release_weak_fst_strong]; omega
        · simp [release_weak_fst_weak]; omega
        · simp [release_weak_snd, hw2, ht]
        · simp [release_weak_fst_strong]; omega
      · by_cases hwone : s.blk.weak_refs = 1
        · refine ⟨?_, ?_, Or.inr (Or.inr ⟨?_, ?_, ?_⟩)⟩
          · simp [release_weak_fst_strong]; omega
          · simp [release_weak_fst_weak]; omega
          · simp [release_weak_snd, hwone, ht]
          · simp [release_weak_fst_strong]; omega
          · simp [release_weak_fst_weak, hwone]
        · have hw2 : ¬(s.blk.weak_refs - 1 = 0) := by omega
          refine ⟨?_, ?_, Or.inr (Or.inl ⟨?_, ?_, ?_⟩)⟩
          · simp [release_weak_fst_strong]; omega
          · simp [release_weak_fst_weak]; omega
          · simp [release_weak_snd, hw2, ht]
          · simp [release_weak_fst_strong]; omega
          · simp [release_weak_fst_weak]; omega
      · omega
  | upgrade h =>
      by_cases h0 : s.blk.strong_refs = 0
      · have hfail : (intrusive_ptr_upgrade_weak s.blk).2 = false := by
          simp [intrusive_ptr_upgrade_weak, h0]
        have hfix := upgrade_fst_of_fail s.blk hfail
        refine ⟨?_, ?_, ?_⟩
        · simp [hfix, hfail]; omega
        · simp [hfix, hfail]; omega
        · rcases htr with ⟨ht, hpos⟩ | ⟨ht, hz, hw⟩ | ⟨ht, hz, hw⟩
          · exact Or.inl ⟨by simp [ht], by simp [hfix]; omega⟩
          · exact Or.inr (Or.inl ⟨by simp [ht], by simp [hfix]; omega,
              by simp [hfix]; omega⟩)
          · exact Or.inr (Or.inr ⟨by simp [ht], by simp [hfix]; omega,
              by simp [hfix]; omega⟩)
      · have hok : (intrusive_ptr_upgrade_weak s.blk).2 = true :=
          (upgrade_snd s.blk).2 h0
        have hinc := upgrade_fst_of_ok s.blk hok
        have hwk := upgrade_fst_weak s.blk
        refine ⟨?_, ?_, ?_⟩
        · simp [hok, hinc]; omega
        · simp [hok, hwk]; omega
        · rcases htr with ⟨ht, hpos⟩ | ⟨ht, hz, hw⟩ | ⟨ht, hz, hw⟩
          · exact Or.inl ⟨by simp [ht], by simp [hinc]⟩
          · omega
          · omega

theorem Reachable_Inv {s : LifeState} (h : Reachable s) : Inv s := by
  induction h with
  | init x y sys ddtor bdtor => exact Inv_init x y sys ddtor bdtor
  | step hr hst ih => exact Step_preserves_Inv ih hst

theorem Step_strong_zero {s t : LifeState} (hinv : Inv s)
    (h0 : s.blk.strong_refs = 0) (hst : Step s t) :
    t.blk.strong_refs = 0 := by
  obtain ⟨h1, h2, htr⟩ := hinv
  cases hst with
  | clone_strong h => omega
  | drop_strong h => omega
  | clone_weak h => simp [intrusive_ptr_add_weak_ref, h0]
  | downgrade h => omega
  | drop_weak h => simp [release_weak_fst_strong, h0]
  | upgrade h =>
      have hfail : (intrusive_ptr_upgrade_weak s.blk).2 = false := by
        simp [intrusive_ptr_upgrade_weak, h0]
      simp [upgrade_fst_of_fail s.blk hfail, h0]

theorem StepStar_strong_zero {s t : LifeState} (hinv : Inv s)
    (h0 : s.blk.strong_refs = 0) (hss : StepStar s t) :
    Inv t ∧ t.blk.strong_refs = 0 := by
  induction hss with
  | refl => exact ⟨hinv, h0⟩
  | tail hss hst ih =>
      exact ⟨Step_preserves_Inv ih.1 hst, Step_strong_zero ih.1 ih.2 hst⟩

theorem dead_state_reachable : Reachable dead_state :=
  Reachable.step (Reachable.init 7 3 11 13 17)
    (Step.drop_strong (initState 7 3 11 13 17) (by decide))

/-- Claim C1: `intrusive_ptr_release` decrements the strong count, and
exactly when that decrement takes the strong count from 1 to 0 it invokes
the data destructor exactly once and then performs exactly one weak
release; the data destructor runs on no other path and, over any
reachable execution, at most once. -/
theorem release_strong_dtor_exactly_once :
    (∀ x : actor_control_block, 0 < x.strong_refs →
      ((intrusive_ptr_release x).1.strong_refs = x.strong_refs - 1 ∧
       (x.strong_refs = 1 →
         ((intrusive_ptr_release x).2.count event.data_dtor_call = 1 ∧
          (intrusive_ptr_release x).1.weak_refs = x.weak_refs - 1 ∧
          (intrusive_ptr_release x).2 =
            event.data_dtor_call ::
              (intrusive_ptr_release_weak
                { x with strong_refs := x.strong_refs - 1 }).2)) ∧
       (x.strong_refs ≠ 1 →
         ((intrusive_ptr_release x).2 = [] ∧
          (intrusive_ptr_release x).1.weak_refs = x.weak_refs)))) ∧
    (∀ x : actor_control_block,
      (intrusive_ptr_add_ref x).2.count event.data_dtor_call = 0 ∧
      (intrusive_ptr_add_weak_ref x).2.count event.data_dtor_call = 0 ∧
      (intrusive_ptr_release_weak x).2.count event.data_dtor_call = 0) ∧
    (∀ s : LifeState, Reachable s →
      s.trace.count event.data_dtor_call ≤ 1) := by
  refine ⟨?_, ?_, ?_⟩
  · intro x hx
    refine ⟨release_fst_strong x, ?_, ?_⟩
    · intro h1x
      refine ⟨?_, ?_, ?_⟩
      · by_cases hw : x.weak_refs - 1 = 0 <;>
          simp [release_snd, h1x, hw]
      · simp [release_fst_weak, h1x]
      · simp [release_snd, release_weak_snd, h1x]
    · intro hne
      have hs2 : ¬(x.strong_refs - 1 = 0) := by omega
      exact ⟨by simp [release_snd, hs2], by simp [release_fst_weak, hs2]⟩
  · intro x
    refine ⟨rfl, rfl, ?_⟩
    by_cases hw : x.weak_refs - 1 = 0 <;> simp [release_weak_snd, hw]
  · intro s hr
    rcases (Reachable_Inv hr).2.2 with ⟨ht, hp⟩ | ⟨ht, hz, hw⟩ | ⟨ht, hz, hw⟩ <;>
      rw [ht] <;> decide

/-- Closed instance of the C1 theorem at a freshly constructed block
(strong count 1) and at the initial lifecycle state. -/
theorem release_strong_dtor_exactly_once_witness :
    (intrusive_ptr_release
        (actor_control_block.construct 7 3 11 13 17)).1.strong_refs =
      (actor_control_block.construct 7 3 11 13 17).strong_refs - 1 ∧
    (intrusive_ptr_release
        (actor_control_block.construct 7 3 11 13 17)).2.count
      event.data_dtor_call = 1 ∧
    (initState 7 3 11 13 17).trace.count event.data_dtor_call ≤ 1 := by
  refine ⟨?_, ?_, ?_⟩
  · exact (release_strong_dtor_exactly_once.1
      (actor_control_block.construct 7 3 11 13 17) (by decide)).1
  · exact ((release_strong_dtor_exactly_once.1
      (actor_control_block.construct 7 3 11 13 17) (by decide)).2.1
        (by decide)).1
  · exact release_strong_dtor_exactly_once.2.2 (initState 7 3 11 13 17)
      (Reachable.init 7 3 11 13 17)

/-- Claim C2: `intrusive_ptr_release_weak` decrements the weak count and
invokes the block destructor exactly when the count goes from 1 to 0; in
every reachable execution the block destructor fires at most once, only
after the data destructor and never while the strong count is positive. -/
theorem release_weak_block_dtor_once :
    (∀ x : actor_control_block, 0 < x.weak_refs →
      ((intrusive_ptr_release_weak x).1.weak_refs = x.weak_refs - 1 ∧
       (x.weak_refs = 1 →
         (intrusive_ptr_release_weak x).2 = [event.block_dtor_call]) ∧
       (x.weak_refs ≠ 1 → (intrusive_ptr_release_weak x).2 = []))) ∧
    (∀ s : LifeState, Reachable s →
      (s.trace.count event.block_dtor_call ≤ 1 ∧
       (event.block_dtor_call ∈ s.trace →
         s.trace = [event.data_dtor_call, event.block_dtor_call] ∧
         s.blk.strong_refs = 0))) := by
  refine ⟨?_, ?_⟩
  · intro x hx
    refine ⟨release_weak_fst_weak x, ?_, ?_⟩
    · intro h1x
      simp [release_weak_snd, h1x]
    · intro hne
      have hw2 : ¬(x.weak_refs - 1 = 0) := by omega
      simp [release_weak_snd, hw2]
  · intro s hr
    rcases (Reachable_Inv hr).2.2 with ⟨ht, hp⟩ | ⟨ht, hz, hw⟩ | ⟨ht, hz, hw⟩
    · refine ⟨by rw [ht]; decide, ?_⟩
      rw [ht]
      intro hmem
      exact absurd hmem (by decide)
    · refine ⟨by rw [ht]; decide, ?_⟩
      rw [ht]
      intro hmem
      exact absurd hmem (by decide)
    · exact ⟨by rw [ht]; decide, fun hmem => ⟨ht, hz⟩⟩

/-- Closed instance of the C2 theorem at a block whose weak count is 1
and at the fully-torn-down reachable state. -/
theorem release_weak_block_dtor_once_witness :
    (intrusive_ptr_release_weak
        (actor_control_block.construct 7 3 11 13 17)).1.weak_refs = 0 ∧
    (intrusive_ptr_release_weak
        (actor_control_block.construct 7 3 11 13 17)).2 =
      [event.block_dtor_call] ∧
    dead_state.trace = [event.data_dtor_call, event.block_dtor_call] ∧
    dead_state.blk.strong_refs = 0 := by
  have h1 := release_weak_block_dtor_once.1
    (actor_control_block.construct 7 3 11 13 17) (by decide)
  have h2 := (release_weak_block_dtor_once.2 dead_state
    dead_state_reachable).2 (by decide)
  exact ⟨h1.1, h1.2.1 (by decide), h2.1, h2.2⟩

/-- Claim C3: `intrusive_ptr_upgrade_weak` succeeds (incrementing the
strong count by exactly one) if and only if the strong count it observes
is nonzero; in every reachable execution, once the strong count has
reached zero it stays zero and every subsequent upgrade fails, and an
upgrade never fails while at least one strong handle is held. -/
theorem upgrade_weak_iff_strong_alive :
    (∀ x : actor_control_block,
      ((intrusive_ptr_upgrade_weak x).2 = true ↔ x.strong_refs ≠ 0) ∧
      ((intrusive_ptr_upgrade_weak x).2 = true →
        (intrusive_ptr_upgrade_weak x).1.strong_refs = x.strong_refs + 1) ∧
      ((intrusive_ptr_upgrade_weak x).2 = false →
        (intrusive_ptr_upgrade_weak x).1 = x)) ∧
    (∀ s t : LifeState, Reachable s → s.blk.strong_refs = 0 →
      StepStar s t →
      (t.blk.strong_refs = 0 ∧
       (intrusive_ptr_upgrade_weak t.blk).2 = false)) ∧
    (∀ s : LifeState, Reachable s → 0 < s.strongHandles →
      (intrusive_ptr_upgrade_weak s.blk).2 = true) := by
  refine ⟨fun x => ⟨upgrade_snd x, upgrade_fst_of_ok x,
    upgrade_fst_of_fail x⟩, ?_, ?_⟩
  · intro s t hr h0 hss
    have h := StepStar_strong_zero (Reachable_Inv hr) h0 hss
    refine ⟨h.2, ?_⟩
    simp [intrusive_ptr_upgrade_weak, h.2]
  · intro s hr hs
    refine (upgrade_snd s.blk).2 ?_
    have h1 := (Reachable_Inv hr).1
    omega

/-- Closed instance of the C3 theorem: the upgrade succeeds on a live
initial state and fails forever on the torn-down reachable state. -/
theorem upgrade_weak_iff_strong_alive_witness :
    (intrusive_ptr_upgrade_weak
        (actor_control_block.construct 7 3 11 13 17)).2 = true ∧
    (intrusive_ptr_upgrade_weak dead_state.blk).2 = false ∧
    (intrusive_ptr_upgrade_weak (initState 7 3 11 13 17).blk).2 = true := by
  refine ⟨?_, ?_, ?_⟩
  · exact ((upgrade_weak_iff_strong_alive.1
      (actor_control_block.construct 7 3 11 13 17)).1).2 (by decide)
  · exact (upgrade_weak_iff_strong_alive.2.1 dead_state dead_state
      dead_state_reachable (by decide) (StepStar.refl dead_state)).2
  · exact upgrade_weak_iff_strong_alive.2.2 (initState 7 3 11 13 17)
      (Reachable.init 7 3 11 13 17) (by decide)

/-- Claim C5: both enqueue overloads of the delivery funnel always
succeed from the caller's point of view — for every input, including a
dead actor, neither overload signals a synchronous error back to the
sender. -/
theorem enqueue_never_signals_error :
    ∀ (x : actor_control_block) (sender : Option actor_addr)
      (mid content host : Nat) (mbox : List mailbox_element)
      (what : mailbox_element) (code : Nat),
      (actor_control_block.enqueue_new x sender mid content host
          mbox).2 ≠ enqueue_outcome.sender_error code ∧
      (actor_control_block.enqueue_element x what host mbox).2 ≠
        enqueue_outcome.sender_error code := by
  intro x sender mid content host mbox what code
  by_cases h : x.strong_refs = 0 <;>
    exact ⟨by simp [actor_control_block.enqueue_new,
        actor_control_block.enqueue_element, h],
      by simp [actor_control_block.enqueue_element, h]⟩

theorem le_iff (a b : actor_addr) :
    actor_addr.le a b = true ↔
      (a.nid < b.nid ∨ (a.nid = b.nid ∧ a.aid ≤ b.aid)) := by
  simp [actor_addr.le, Bool.or_eq_true, Bool.and_eq_true,
    decide_eq_true_eq]

/-- Claim C7: two addresses are equal iff both their node identifiers and
local identifiers match; `actor_addr.le` is a total order (reflexive,
antisymmetric, transitive, total) consistent with this equality; and the
address stored in a control block is unchanged by every operation of the
layer. -/
theorem addr_eq_iff_total_order_immutable :
    (∀ a b : actor_addr, a = b ↔ (a.nid = b.nid ∧ a.aid = b.aid)) ∧
    (∀ a : actor_addr, actor_addr.le a a = true) ∧
    (∀ a b : actor_addr, actor_addr.le a b = true →
      actor_addr.le b a = true → a = b) ∧
    (∀ a b c : actor_addr, actor_addr.le a b = true →
      actor_addr.le b c = true → actor_addr.le a c = true) ∧
    (∀ a b : actor_addr,
      actor_addr.le a b = true ∨ actor_addr.le b a = true) ∧
    (∀ x : actor_control_block,
      actor_control_block.addr_of (intrusive_ptr_add_ref x).1 =
        actor_control_block.addr_of x ∧
      actor_control_block.addr_of (intrusive_ptr_add_weak_ref x).1 =
        actor_control_block.addr_of x ∧
      actor_control_block.addr_of (intrusive_ptr_release x).1 =
        actor_control_block.addr_of x ∧
      actor_control_block.addr_of (intrusive_ptr_release_weak x).1 =
        actor_control_block.addr_of x ∧
      actor_control_block.addr_of (intrusive_ptr_upgrade_weak x).1 =
        actor_control_block.addr_of x) := by
  refine ⟨?_, ?_, ?_, ?_, ?_, ?_⟩
  · intro a b
    cases a
    cases b
    simp
  · intro a
    rw [le_iff]
    exact Or.inr ⟨rfl, le_refl _⟩
  · intro a b h1 h2
    rw [le_iff] at h1 h2
    rcases h1 with h1 | ⟨h1a, h1b⟩ <;> rcases h2 with h2 | ⟨h2a, h2b⟩
    · exact absurd h2 (lt_asymm h1)
    · exact absurd (h2a ▸ h1) (lt_irrefl _)
    · exact absurd (h1a ▸ h2) (lt_irrefl _)
    · cases a
      cases b
      simp only [actor_addr.mk.injEq]
      exact ⟨h1a, le_antisymm h1b h2b⟩
  · intro a b c h1 h2
    rw [le_iff] at h1 h2
    rw [le_iff]
    rcases h1 with h1 | ⟨h1a, h1b⟩ <;> rcases h2 with h2 | ⟨h2a, h2b⟩
    · exact Or.inl (lt_trans h1 h2)
    · exact Or.inl (h2a ▸ h1)
    · exact Or.inl (h1a ▸ h2)
    · exact Or.inr ⟨h1a.trans h2a, le_trans h1b h2b⟩
  · intro a b
    rw [le_iff, le_iff]
    rcases lt_trichotomy a.nid b.nid with h | h | h
    · exact Or.inl (Or.inl h)
    · rcases le_total a.aid b.aid with h2 | h2
      · exact Or.inl (Or.inr ⟨h, h2⟩)
      · exact Or.inr (Or.inr ⟨h.symm, h2⟩)
    · exact Or.inr (Or.inl h)
  · intro x
    refine ⟨rfl, rfl, ?_, ?_, ?_⟩
    · by_cases h : x.strong_refs - 1 = 0 <;>
        by_cases h2 : x.weak_refs - 1 = 0 <;>
        simp [intrusive_ptr_release, intrusive_ptr_release_weak,
          actor_control_block.addr_of, h, h2]
    · by_cases h2 : x.weak_refs - 1 = 0 <;>
        simp [intrusive_ptr_release_weak, actor_control_block.addr_of, h2]
    · by_cases h : x.strong_refs = 0 <;>
        simp [intrusive_ptr_upgrade_weak, actor_control_block.addr_of, h]

/-- Closed instance of the C7 theorem: antisymmetry and transitivity of
the address order applied at concrete addresses. -/
theorem addr_eq_iff_total_order_immutable_witness :
    ({ nid := 1, aid := 2 } : actor_addr) = { nid := 1, aid := 2 } ∧
    actor_addr.le { nid := 1, aid := 2 } { nid := 2, aid := 0 } = true := by
  constructor
  · exact addr_eq_iff_total_order_immutable.2.2.1
      { nid := 1, aid := 2 } { nid := 1, aid := 2 } (by decide) (by decide)
  · exact addr_eq_iff_total_order_immutable.2.2.2.1
      { nid := 1, aid := 2 } { nid := 1, aid := 3 } { nid := 2, aid := 0 }
      (by decide) (by decide)

/-- Claim C8: the serialized form of a strong or weak handle consists of
nothing but the address and the strong/weak/empty discriminator — it is
a function of those alone, never of the actor's private data — and
deserializing it on the same node through a coherent registry yields the
same control block (identity-preserving round trip, no proxy). -/
theorem serialize_roundtrip_same_node :
    (∀ (env : block_id → actor_control_block) (b : block_id),
      serialize_strong env (some b) =
        actor_ref_wire.strong_ref (env b).nid (env b).aid ∧
      serialize_weak env (some b) =
        actor_ref_wire.weak_ref (env b).nid (env b).aid ∧
      serialize_strong env none = actor_ref_wire.empty ∧
      serialize_weak env none = actor_ref_wire.empty ∧
      (serialize_strong env (some b)).discriminator = 1 ∧
      (serialize_weak env (some b)).discriminator = 2 ∧
      (serialize_strong env none).discriminator = 0) ∧
    (∀ (env env' : block_id → actor_control_block) (b b' : block_id),
      (env b).nid = (env' b').nid → (env b).aid = (env' b').aid →
      serialize_strong env (some b) = serialize_strong env' (some b') ∧
      serialize_weak env (some b) = serialize_weak env' (some b')) ∧
    (∀ (env : block_id → actor_control_block)
       (reg : actor_addr → Option block_id)
       (mkProxy : actor_addr → block_id) (localNode : node_id)
       (b : block_id),
      (env b).nid = localNode →
      reg { nid := (env b).nid, aid := (env b).aid } = some b →
      deserialize_handle localNode reg mkProxy
          (serialize_strong env (some b)) = some b ∧
      deserialize_handle localNode reg mkProxy
          (serialize_weak env (some b)) = some b) ∧
    (∀ (env : block_id → actor_control_block)
       (reg : actor_addr → Option block_id)
       (mkProxy : actor_addr → block_id) (localNode : node_id),
      deserialize_handle localNode reg mkProxy
          (serialize_strong env none) = none ∧
      deserialize_handle localNode reg mkProxy
          (serialize_weak env none) = none) := by
  refine ⟨?_, ?_, ?_, ?_⟩
  · intro env b
    exact ⟨rfl, rfl, rfl, rfl, rfl, rfl, rfl⟩
  · intro env env' b b' hn ha
    constructor
    · simp [serialize_strong, hn, ha]
    · simp [serialize_weak, hn, ha]
  · intro env reg mkProxy localNode b hn hreg
    subst hn
    constructor
    · simp [serialize_strong, deserialize_handle, hreg]
    · simp [serialize_weak, deserialize_handle, hreg]
  · intro env reg mkProxy localNode
    exact ⟨rfl, rfl⟩

/-- Closed instance of the C8 theorem: the same-node round trip at a
concrete block, registry and environment. -/
theorem serialize_roundtrip_same_node_witness :
    deserialize_handle 3
        (fun a => if a = { nid := 3, aid := 7 } then some 5 else none)
        (fun _ => 0)
        (serialize_strong
          (fun _ => actor_control_block.construct 7 3 11 13 17)
          (some 5)) = some 5 ∧
    deserialize_handle 3
        (fun a => if a = { nid := 3, aid := 7 } then some 5 else none)
        (fun _ => 0)
        (serialize_weak
          (fun _ => actor_control_block.construct 7 3 11 13 17)
          (some 5)) = some 5 := by
  exact serialize_roundtrip_same_node.2.2.1
    (fun _ => actor_control_block.construct 7 3 11 13 17)
    (fun a => if a = { nid := 3, aid := 7 } then some 5 else none)
    (fun _ => 0) 3 5 (by decide) (by decide)

/-- Claim C9: deserializing a strong handle whose address names an actor
the deserializing node's runtime reports as already gone (the local
registry lookup is empty) yields the empty handle; the result is exactly
the registry's answer, never a fabricated reference. -/
theorem deserialize_gone_yields_empty :
    ∀ (reg : actor_addr → Option block_id)
      (mkProxy : actor_addr → block_id) (localNode : node_id)
      (n : node_id) (a : actor_id),
      n = localNode →
      (deserialize_handle localNode reg mkProxy
          (actor_ref_wire.strong_ref n a) =
        reg { nid := n, aid := a } ∧
       (reg { nid := n, aid := a } = none →
        deserialize_handle localNode reg mkProxy
            (actor_ref_wire.strong_ref n a) = none)) := by
  intro reg mkProxy localNode n a hn
  subst hn
  constructor
  · simp [deserialize_handle]
  · intro hreg
    simp [deserialize_handle, hreg]

/-- Closed instance of the C9 theorem: an empty registry yields the empty
handle for a local strong reference. -/
theorem deserialize_gone_yields_empty_witness :
    deserialize_handle 3 (fun _ => none) (fun _ => 0)
      (actor_ref_wire.strong_ref 3 7) = none := by
  exact (deserialize_gone_yields_empty (fun _ => none) (fun _ => 0) 3 3 7
    rfl).2 rfl

end caf
